import Mathlib

/-!
Verification of the nexa-sdk VLM front end (src/nexa/utils.py and
src/nexa/gguf/nexa_inference_vlm.py) against its specification.

The Python code is shallowly embedded: filesystem state, the module-level
parameter dictionary, and the process-wide stdout/stderr bindings become
explicit state values; functions that exit the process return a dedicated
constructor; external collaborators (the model hub's pull_model, base64
encoding) are taken as function parameters.
-/

namespace Nexa

/-! ## String and path helpers

Python's `str.split(sep)` and `pathlib.Path`'s `parent` / `name` / `/`,
restricted to relative POSIX-style paths without redundant separators,
which is the shape every claim exercises. Implemented by structural
recursion on the character list so that concrete instances reduce in the
kernel. -/

/-- `splitOnChar c l` splits `l` at every occurrence of `c`
(Python `str.split(c)`): the result is always nonempty and the separators
are dropped. -/
def splitOnChar (c : Char) : List Char → List (List Char)
  | [] => [[]]
  | x :: xs =>
    let r := splitOnChar c xs
    if x = c then [] :: r
    else
      match r with
      | [] => [[x]]
      | h :: t => (x :: h) :: t

/-- `splitOnChar` never returns the empty list. -/
theorem splitOnChar_ne_nil (c : Char) (l : List Char) : splitOnChar c l ≠ [] := by
  induction l with
  | nil => simp [splitOnChar]
  | cons x xs ih =>
    simp only [splitOnChar]
    split
    · simp
    · cases h : splitOnChar c xs with
      | nil => exact absurd h ih
      | cons a t => simp

/-- Join a list of character lists with a separator character. -/
def joinWithChar (c : Char) : List (List Char) → List Char
  | [] => []
  | [x] => x
  | x :: xs => x ++ c :: joinWithChar c xs

/-- The segments of a path, split at each slash. -/
def pathSegments (p : String) : List (List Char) :=
  splitOnChar '/' p.data

/-- Python `Path(p).parent` for a relative path: all segments but the last,
rejoined; `"."` when the path has a single segment. -/
def pathParent (p : String) : String :=
  let parts := pathSegments p
  if parts.length ≤ 1 then "."
  else String.mk (joinWithChar '/' parts.dropLast)

/-- Python `Path(p).name`: the final path segment. -/
def pathName (p : String) : String :=
  String.mk ((pathSegments p).getLastD [])

/-- Python `Path(d) / f` for a relative directory: `Path(".") / f` is just
`f`, otherwise the two are joined with a slash. -/
def pathJoin (d f : String) : String :=
  if d = "." then f else d ++ "/" ++ f

/-- Python `name.split(":")[-1]`: the portion of `name` after its last
colon, or all of `name` when it has no colon. -/
def tagAndExt (name : String) : String :=
  String.mk ((splitOnChar ':' name.data).getLastD name.data)

/-! ## Filesystem state

`os.path.exists` / `Path.exists` and file reads are modelled by an explicit
finite filesystem: a list of existing directories and a list of existing
files with their byte contents (contents stand in as strings). -/

structure FS where
  dirs : List String
  files : List (String × String)
deriving DecidableEq

/-- `Path(p).exists()` for a directory. -/
def FS.dirExists (fs : FS) (p : String) : Bool :=
  fs.dirs.contains p

/-- `os.path.exists(p)` / `Path(p).exists()` for a file. -/
def FS.fileExists (fs : FS) (p : String) : Bool :=
  (fs.files.map Prod.fst).contains p

/-- The bytes of an existing file (empty for a missing one). -/
def FS.read (fs : FS) (p : String) : String :=
  match fs.files.find? (fun e => e.1 = p) with
  | some e => e.2
  | none => ""

/-! ## Model resolution (NexaVLMInference.__init__, lines 91-114)

The hub tables NEXA_RUN_MODEL_MAP_VLM and NEXA_RUN_PROJECTOR_MAP live in
nexa.constants; the startup assertion in nexa_inference_vlm.py forces their
key sets to coincide, so the two are modelled as one association list from
hub key to (model artifact, projector artifact). `pull_model` (nexa.general,
the ModelHub collaborator) is an opaque function from artifact name to
cached local path. `exit(1)` becomes the `fatalExit` result. -/

abbrev HubTable := List (String × String × String)

/-- Association-list lookup, as Python `key in dict` / `dict.get(key)`. -/
def hubLookup (hub : HubTable) (k : String) : Option (String × String) :=
  match hub.find? (fun e => e.1 = k) with
  | some e => some e.2
  | none => none

/-- Outcome of `NexaVLMInference.__init__`'s path resolution:
either both paths were obtained from the hub, or both were found as a
local `model-<tag>` / `projector-<tag>` pair, or the process exited. -/
inductive ResolveResult where
  | hub (modelPath projectorPath : String)
  | localPair (modelPath projectorPath : String)
  | fatalExit
deriving DecidableEq

/-- The `elif (local_dir := Path(model_path).parent).exists()` branch and
the final `else` branch of `NexaVLMInference.__init__`: derive the sibling
directory and the tag suffix, require both expected files to exist, and
exit fatally otherwise. -/
def resolveLocal (fs : FS) (model_path : String) : ResolveResult :=
  let local_dir := pathParent model_path
  if fs.dirExists local_dir then
    let model_name := pathName model_path
    let t := tagAndExt model_name
    let downloaded_path := pathJoin local_dir ("model-" ++ t)
    let projector_downloaded_path := pathJoin local_dir ("projector-" ++ t)
    if fs.fileExists downloaded_path && fs.fileExists projector_downloaded_path then
      ResolveResult.localPair downloaded_path projector_downloaded_path
    else
      ResolveResult.fatalExit
  else
    ResolveResult.fatalExit

/-- Path resolution in `NexaVLMInference.__init__`: an exact hub-key match
pulls both artifacts; otherwise the reference is interpreted as a local
path via `resolveLocal`. -/
def resolveModel (hub : HubTable) (pull : String → String) (fs : FS)
    (model_path : String) : ResolveResult :=
  match hubLookup hub model_path with
  | some arts => ResolveResult.hub (pull arts.1) (pull arts.2)
  | none => resolveLocal fs model_path

/-! ## Generation parameters (DEFAULT_TEXT_GEN_PARAMS and self.params)

Parameter dictionaries hold heterogeneous numeric values; no arithmetic is
performed on them anywhere in the repository, so values are carried as an
inductive that can represent the ints and floats appearing in the code
(a float literal `a.b` is carried as `decimal a b`). -/

inductive PVal where
  | int (n : Int)
  | decimal (whole frac : Nat)
  | str (s : String)
deriving DecidableEq

/-- Python dictionaries keyed by strings, as association lists with unique
update-in-place semantics. -/
abbrev PDict := List (String × PVal)

/-- `d[k] = v`: replace the binding of `k` if present, else append it. -/
def dictSet (d : PDict) (k : String) (v : PVal) : PDict :=
  match d with
  | [] => [(k, v)]
  | (k0, v0) :: rest =>
    if k0 = k then (k0, v) :: rest else (k0, v0) :: dictSet rest k v

/-- `d.get(k)` / `k in d`. -/
def dictGet : PDict → String → Option PVal
  | [], _ => none
  | (k0, v0) :: rest, k => if k0 = k then some v0 else dictGet rest k

/-- `d.get(k, default)`. -/
def dictGetD (d : PDict) (k : String) (v : PVal) : PVal :=
  (dictGet d k).getD v

/-- `d.update(kw)`: set every binding of `kw` in `d`, in order. -/
def dictUpdate (d kw : PDict) : PDict :=
  kw.foldl (fun acc e => dictSet acc e.1 e.2) d

/-- The module-level mutable state of nexa.constants as seen by this
repository: the `DEFAULT_TEXT_GEN_PARAMS` dictionary object. -/
structure ModuleState where
  DEFAULT_TEXT_GEN_PARAMS : PDict
deriving DecidableEq

/-- Lines 81-83 of `NexaVLMInference.__init__`:
`self.params = DEFAULT_TEXT_GEN_PARAMS` binds the module-level dictionary
object itself (no copy), and `self.params.update(kwargs)` then mutates that
shared object in place. The result is the module state after construction
together with the instance's `self.params`; aliasing makes the two equal
dictionaries. -/
def initParams (m : ModuleState) (kwargs : PDict) : ModuleState × PDict :=
  let updated := dictUpdate m.DEFAULT_TEXT_GEN_PARAMS kwargs
  (⟨updated⟩, updated)

/-! ## Engine load call (NexaVLMInference._load_model, lines 151-158)

`llama.Llama(...)` is the external engine; the embedding records the
configuration the repository passes to it. -/

structure LoadCall where
  model_path : String
  n_ctx : PVal
  n_gpu_layers : Int
deriving DecidableEq

/-- The `llama.Llama` construction inside `_load_model`: the context size
is `self.params.get("max_new_tokens", 2048)` and all layers are offloaded
(`n_gpu_layers=-1`). -/
def loadModelCall (params : PDict) (downloaded_path : String) : LoadCall :=
  { model_path := downloaded_path
    n_ctx := dictGetD params "max_new_tokens" (PVal.int 2048)
    n_gpu_layers := -1 }

/-! ## Chat messages and the engine chat call (_chat, lines 196-222) -/

inductive ContentPart where
  | text (s : String)
  | imageUrl (uri : String)
deriving DecidableEq

structure Msg where
  role : String
  content : List ContentPart
deriving DecidableEq

/-- The `self.model.create_chat_completion(...)` invocation: the messages
and the sampling configuration forwarded to the engine. An absent key in
`self.params` would be a Python `KeyError`; the `Option` records the
indexing result. -/
structure EngineCall where
  messages : List Msg
  temperature : Option PVal
  max_tokens : Option PVal
  top_k : Option PVal
  top_p : Option PVal
  stream : Bool
  stop : List String
deriving DecidableEq

/-- `image_to_base64_data_uri` (lines 38-43): for a truthy path naming an
existing file, the file bytes are base64-encoded (encoder `b64` is the
external `base64.b64encode`) into a data URI; otherwise `None`. -/
def image_to_base64_data_uri (b64 : String → String) (fs : FS)
    (file_path : String) : Option String :=
  if file_path ≠ "" && fs.fileExists file_path then
    some ("data:image/png;base64," ++ b64 (fs.read file_path))
  else
    none

/-- `NexaVLMInference._chat` (lines 196-222): builds the data URI when an
image path is supplied, assembles the content list (image part inserted at
the front when a URI was produced), wraps it in the fixed two-message
conversation, and invokes the engine. There is no input-validation branch:
every call produces an engine invocation. -/
def chat (b64 : String → String) (fs : FS) (params : PDict)
    (stop_words : List String) (user_input : String) (image_path : String) :
    EngineCall :=
  let data_uri :=
    if image_path ≠ "" then image_to_base64_data_uri b64 fs image_path else none
  let content :=
    match data_uri with
    | some uri => [ContentPart.imageUrl uri, ContentPart.text user_input]
    | none => [ContentPart.text user_input]
  { messages :=
      [ { role := "system"
          content := [ContentPart.text
            "You are an assistant who perfectly describes images."] }
      , { role := "user", content := content } ]
    temperature := dictGet params "temperature"
    max_tokens := dictGet params "max_new_tokens"
    top_k := dictGet params "top_k"
    top_p := dictGet params "top_p"
    stream := true
    stop := stop_words }

/-! ## One iteration of the interactive loop (run, lines 163-194)

A turn: the image path and the text are read, a warning is printed when the
image path is nonempty but names no existing file, the turn is rejected
(printing a notice and continuing) when both inputs are empty, and
otherwise `_chat` is invoked. -/

structure TurnOutcome where
  warnings : List String
  rejectedMsg : Option String
  engineCall : Option EngineCall
deriving DecidableEq

/-- The body of one `run` iteration, from the two prompts to the `_chat`
call. -/
def runTurn (b64 : String → String) (fs : FS) (params : PDict)
    (stop_words : List String) (image_path user_input : String) :
    TurnOutcome :=
  let warnings :=
    if image_path ≠ "" && !fs.fileExists image_path then
      ["\x27" ++ image_path ++ "\x27 is not a path to image. Will ignore."]
    else []
  if user_input = "" && image_path = "" then
    { warnings := warnings
      rejectedMsg := some "Please provide an image or text input."
      engineCall := none }
  else
    { warnings := warnings
      rejectedMsg := none
      engineCall := some (chat b64 fs params stop_words user_input image_path) }

/-! ## Scoped output suppression (nexa/utils.py, suppress_stdout_stderr)

Process-wide stream state: which handle `sys.stdout` and `sys.stderr`
currently denote. `open(os.devnull, "w")` yields a fresh null-device
handle, tracked by a counter. -/

inductive StreamHandle where
  | realOut
  | realErr
  | nullFile (id : Nat)
  | other (n : Nat)
deriving DecidableEq

structure StdStreams where
  stdout : StreamHandle
  stderr : StreamHandle
  nextNull : Nat
deriving DecidableEq

/-- The fields a `suppress_stdout_stderr` instance stores on `__enter__`:
the opened null file, the saved `sys.stdout` / `sys.stderr`, and the values
the two `redirect_*` context managers captured at their own `__enter__`. -/
structure Suppressor where
  null_file : StreamHandle
  old_stdout : StreamHandle
  old_stderr : StreamHandle
  redirect_saved_stdout : StreamHandle
  redirect_saved_stderr : StreamHandle
deriving DecidableEq

/-- `suppress_stdout_stderr.__enter__` (lines 72-80): open the null file,
save the current streams, and enter both redirections, after which
`sys.stdout` and `sys.stderr` denote the null file. -/
def suppressEnter (s : StdStreams) : Suppressor × StdStreams :=
  let nf := StreamHandle.nullFile s.nextNull
  ( { null_file := nf
      old_stdout := s.stdout
      old_stderr := s.stderr
      redirect_saved_stdout := s.stdout
      redirect_saved_stderr := s.stderr }
  , { stdout := nf, stderr := nf, nextNull := s.nextNull + 1 } )

/-- `suppress_stdout_stderr.__exit__` (lines 82-87): exit both
redirections (each restores the stream it saved), then assign the saved
`old_stdout` / `old_stderr`, then close the null file (closing does not
change the bindings). -/
def suppressExit (sup : Suppressor) (s : StdStreams) : StdStreams :=
  let s1 := { s with stdout := sup.redirect_saved_stdout }
  let s2 := { s1 with stderr := sup.redirect_saved_stderr }
  { s2 with stdout := sup.old_stdout, stderr := sup.old_stderr }

/-- Python `with suppress_stdout_stderr(): op` — `__exit__` runs on every
exit path, whether `op` returns a value or raises (`Except.error`), and the
raised error is then re-raised unchanged. -/
def withSuppress {ε α : Type} (op : StdStreams → StdStreams × Except ε α)
    (s : StdStreams) : StdStreams × Except ε α :=
  let es := suppressEnter s
  let r := op es.2
  (suppressExit es.1 r.1, r.2)

/-- A write through `sys.stdout` reaches whichever handle `sys.stdout`
currently denotes. -/
def writeStdoutTarget (s : StdStreams) : StreamHandle := s.stdout

/-- A write through `sys.stderr` reaches whichever handle `sys.stderr`
currently denotes. -/
def writeStderrTarget (s : StdStreams) : StreamHandle := s.stderr

/-- `SpinningCursorAnimation._spin` writes its frames with
`sys.stdout.write` (line 152), so each of its writes lands on whatever
handle `sys.stdout` denotes at that moment. -/
def spinnerWriteTarget (s : StdStreams) : StreamHandle := s.stdout

/-! ## The spinner (nexa/utils.py, SpinningCursorAnimation)

The shared state a `SpinningCursorAnimation` instance carries across uses:
its `stop_spinning` event, whether the spawned background thread is
running, and the `itertools.cycle` position. The background loop `_spin`
is modelled as the list of frame indices it writes, parametrized by the
value `stop_spinning.is_set()` returns at its k-th check (the loop checks
twice per iteration: the `while` condition, then the mid-body `break`
test) and bounded by fuel. -/

def spinnerFrames : List String :=
  ["⠋", "⠙", "⠹", "⠸", "⠼", "⠴", "⠦", "⠧", "⠇", "⠏"]

structure SpinnerState where
  stop_spinning : Bool
  threadRunning : Bool
  cyclePos : Nat
deriving DecidableEq

/-- `SpinningCursorAnimation.__init__`: fresh cycle, cleared event, no
thread. -/
def spinnerInit : SpinnerState :=
  { stop_spinning := false, threadRunning := false, cyclePos := 0 }

/-- The frame indices `_spin` writes: index `i` is written in iteration `i`
unless the stop event was observed set at the iteration's `while` check
(check number `2*i`); the mid-body `break` check is number `2*i+1`. -/
def spinWrites (isSet : Nat → Bool) : Nat → Nat → List Nat
  | 0, _ => []
  | fuel + 1, i =>
    if isSet (2 * i) then []
    else i :: (if isSet (2 * i + 1) then [] else spinWrites isSet fuel (i + 1))

/-- `SpinningCursorAnimation.__enter__` (lines 158-161): spawn and start
the `_spin` thread. The stop event is not touched — in particular it is
not cleared. -/
def spinnerEnter (s : SpinnerState) : SpinnerState :=
  { s with threadRunning := true }

/-- `SpinningCursorAnimation.__exit__` (lines 163-167): set the stop
event, then join the thread. The join returns because `_spin`'s loop
condition observes the now-set event (see `spinWrites_stopped`), after
which the thread is no longer running. -/
def spinnerExit (s : SpinnerState) : SpinnerState :=
  { s with stop_spinning := true, threadRunning := false }

/-- `SpinningCursorAnimation.__call__`'s wrapper (lines 169-175): run the
wrapped call inside `with self:`, so `__exit__` runs whether the call
returns or raises, and the result (or the re-raised error) is passed
through. -/
def spinnerWrap {σ ε α : Type} (op : σ → σ × Except ε α)
    (sp : SpinnerState) (st : σ) : (SpinnerState × σ) × Except ε α :=
  let sp1 := spinnerEnter sp
  let r := op st
  ((spinnerExit sp1, r.1), r.2)

/-! ## Helper lemmas -/

/-- Once the stop event is observed set at every check, `_spin`'s loop body
never runs: no frame is written. -/
theorem spinWrites_stopped (isSet : Nat → Bool) (h : ∀ n, isSet n = true) :
    ∀ fuel i, spinWrites isSet fuel i = []
  | 0, _ => rfl
  | fuel + 1, i => by simp [spinWrites, h]

/-- Setting a key makes it readable: `d[k] = v` then `d.get(k)` is `v`. -/
theorem dictGet_dictSet_self (d : PDict) (k : String) (v : PVal) :
    dictGet (dictSet d k v) k = some v := by
  induction d with
  | nil => simp [dictSet, dictGet]
  | cons e rest ih =>
    obtain ⟨k0, v0⟩ := e
    by_cases hk : k0 = k
    · simp [dictSet, dictGet, hk]
    · simp [dictSet, dictGet, hk, ih]

/-- `d.update({})` leaves the dictionary unchanged. -/
theorem dictUpdate_nil (d : PDict) : dictUpdate d [] = d := rfl

/-- `d.update({k: v})` is a single in-place set. -/
theorem dictUpdate_single (d : PDict) (k : String) (v : PVal) :
    dictUpdate d [(k, v)] = dictSet d k v := rfl

/-- Splitting a list free of the separator returns the list whole. -/
theorem splitOnChar_of_not_mem (c : Char) (l : List Char) (h : c ∉ l) :
    splitOnChar c l = [l] := by
  induction l with
  | nil => rfl
  | cons x xs ih =>
    simp only [List.mem_cons, not_or] at h
    simp [splitOnChar, Ne.symm h.1, ih h.2]

/-- Splitting at the first separator occurrence peels off the prefix. -/
theorem splitOnChar_append_cons (c : Char) (l1 l2 : List Char)
    (h : c ∉ l1) :
    splitOnChar c (l1 ++ c :: l2) = l1 :: splitOnChar c l2 := by
  induction l1 with
  | nil => simp [splitOnChar]
  | cons x xs ih =>
    simp only [List.mem_cons, not_or] at h
    simp [splitOnChar, Ne.symm h.1, ih h.2]

/-- The segments of `d ++ "/" ++ rest` when neither side contains a
slash. -/
theorem pathSegments_append (d rest : String)
    (hd : ('/' : Char) ∉ d.data) (hr : ('/' : Char) ∉ rest.data) :
    pathSegments (d ++ "/" ++ rest) = [d.data, rest.data] := by
  have hslash : ("/" : String).data = ['/'] := rfl
  have hdata : (d ++ "/" ++ rest).data = d.data ++ '/' :: rest.data := by
    simp [String.data_append, hslash]
  rw [pathSegments, hdata, splitOnChar_append_cons _ _ _ hd,
    splitOnChar_of_not_mem _ _ hr]

/-- `Path(d ++ "/" ++ rest).parent` is `d` for slash-free components. -/
theorem pathParent_append (d rest : String)
    (hd : ('/' : Char) ∉ d.data) (hr : ('/' : Char) ∉ rest.data) :
    pathParent (d ++ "/" ++ rest) = d := by
  obtain ⟨ld⟩ := d
  simp [pathParent, pathSegments_append _ _ hd hr, joinWithChar]

/-- `Path(d ++ "/" ++ rest).name` is `rest` for slash-free components. -/
theorem pathName_append (d rest : String)
    (hd : ('/' : Char) ∉ d.data) (hr : ('/' : Char) ∉ rest.data) :
    pathName (d ++ "/" ++ rest) = rest := by
  obtain ⟨lr⟩ := rest
  simp [pathName, pathSegments_append _ _ hd hr]

/-- `name.split(":")[-1]` of `pre ++ ":" ++ t` is `t` for colon-free
components. -/
theorem tagAndExt_append (pre t : String)
    (hp : (':' : Char) ∉ pre.data) (ht : (':' : Char) ∉ t.data) :
    tagAndExt (pre ++ ":" ++ t) = t := by
  have hcolon : (":" : String).data = [':'] := rfl
  have hdata : (pre ++ ":" ++ t).data = pre.data ++ ':' :: t.data := by
    simp [String.data_append, hcolon]
  obtain ⟨lt⟩ := t
  rw [tagAndExt, hdata, splitOnChar_append_cons _ _ _ hp,
    splitOnChar_of_not_mem _ _ ht]
  rfl

/-! ## Claim theorems -/

/-- Claim C1 counterexample: `_chat` itself raises no `EmptyInputError`.
Called with empty user text and no image path, it still builds the
two-message conversation (whose user content is a lone empty text part)
and produces an engine invocation, contradicting the claim that the error
is raised by the converse operation itself before any engine call. -/
theorem chat_empty_input_calls_engine :
    chat (fun s => s) ⟨[], []⟩ [("temperature", PVal.decimal 0 8)] [] "" "" =
      { messages :=
          [ { role := "system"
              content := [ContentPart.text
                "You are an assistant who perfectly describes images."] }
          , { role := "user", content := [ContentPart.text ""] } ]
        temperature := some (PVal.decimal 0 8)
        max_tokens := none
        top_k := none
        top_p := none
        stream := true
        stop := [] } := by
  decide

/-- Claim C1 amended: the empty-input guard lives in the interactive `run`
loop, not in `_chat`. When both the user text and the image path are
empty, one loop iteration prints the rejection notice and continues
without invoking `_chat`, so no engine call happens; `_chat` itself
performs no such check. -/
theorem runTurn_empty_input_rejected (b64 : String → String) (fs : FS)
    (params : PDict) (sw : List String) :
    runTurn b64 fs params sw "" "" =
      { warnings := []
        rejectedMsg := some "Please provide an image or text input."
        engineCall := none } := by
  simp [runTurn]

/-- Claim C4: the scoped output suppressor restores the original stdout
and stderr on every exit path. For every enclosed operation — including
one that raises (`Except.error`) or that itself rebinds the streams — the
state after the scope has the original streams, the raised error or value
is passed through unchanged, and inside the scope both streams denote the
freshly opened null file, so writes inside the scope do not reach the
original streams. -/
theorem suppressor_restores_streams (ε α : Type)
    (op : StdStreams → StdStreams × Except ε α) (s : StdStreams)
    (h1 : s.stdout ≠ StreamHandle.nullFile s.nextNull)
    (h2 : s.stderr ≠ StreamHandle.nullFile s.nextNull) :
    ((withSuppress op s).1.stdout = s.stdout ∧
     (withSuppress op s).1.stderr = s.stderr ∧
     (withSuppress op s).2 = (op (suppressEnter s).2).2) ∧
    (writeStdoutTarget (suppressEnter s).2 = StreamHandle.nullFile s.nextNull ∧
     writeStderrTarget (suppressEnter s).2 = StreamHandle.nullFile s.nextNull ∧
     writeStdoutTarget (suppressEnter s).2 ≠ s.stdout ∧
     writeStderrTarget (suppressEnter s).2 ≠ s.stderr) := by
  refine ⟨⟨?_, ?_, ?_⟩, ?_, ?_, ?_, ?_⟩ <;>
    simp [withSuppress, suppressEnter, suppressExit, writeStdoutTarget,
      writeStderrTarget]
  · exact fun hc => h1 hc.symm
  · exact fun hc => h2 hc.symm

/-- Witness for C4 at a concrete state and a concrete operation that both
raises and clobbers the stream bindings: the original streams are
restored, the error propagates, and the in-scope write target is the null
file. -/
theorem suppressor_restores_streams_witness :
    ((withSuppress
        (fun st => ({ st with stdout := StreamHandle.other 5 },
          (Except.error 7 : Except Nat Nat)))
        ⟨StreamHandle.realOut, StreamHandle.realErr, 0⟩).1.stdout =
      StreamHandle.realOut ∧
     (withSuppress
        (fun st => ({ st with stdout := StreamHandle.other 5 },
          (Except.error 7 : Except Nat Nat)))
        ⟨StreamHandle.realOut, StreamHandle.realErr, 0⟩).2 = Except.error 7) ∧
    writeStdoutTarget
        (suppressEnter ⟨StreamHandle.realOut, StreamHandle.realErr, 0⟩).2 =
      StreamHandle.nullFile 0 := by
  have h := suppressor_restores_streams Nat Nat
    (fun st => ({ st with stdout := StreamHandle.other 5 }, Except.error 7))
    ⟨StreamHandle.realOut, StreamHandle.realErr, 0⟩
    (by decide) (by decide)
  exact ⟨⟨h.1.1, by rw [h.1.2.2]⟩, h.2.1⟩

/-- Claim C5 counterexample: while suppression is in effect the spinner
thread's `sys.stdout.write` lands on the discard (null-file) target, not
on the original terminal stream, because `redirect_stdout` rebinds the
process-wide `sys.stdout` that `_spin` reads. -/
theorem spinner_write_suppressed_counterexample :
    spinnerWriteTarget
        (suppressEnter ⟨StreamHandle.realOut, StreamHandle.realErr, 0⟩).2 =
      StreamHandle.nullFile 0 ∧
    StreamHandle.nullFile 0 ≠ StreamHandle.realOut := by
  decide

/-- Claim C5 amended: for every stream state, while the suppressor's scope
is active the spinner's writes reach the freshly opened null file — the
discard target — and only after the scope exits do they again reach the
original stream. -/
theorem spinner_write_target_during_suppression (s : StdStreams) :
    spinnerWriteTarget (suppressEnter s).2 =
      StreamHandle.nullFile s.nextNull ∧
    spinnerWriteTarget
        (suppressExit (suppressEnter s).1 (suppressEnter s).2) = s.stdout := by
  simp [spinnerWriteTarget, suppressEnter, suppressExit]

/-- Claim C6: `self.params = DEFAULT_TEXT_GEN_PARAMS` aliases the
module-level dictionary and `self.params.update(kwargs)` mutates it in
place: after construction the module-level dictionary and the instance's
parameters are the same dictionary; a second instance constructed later
with no keyword overrides receives the first instance's mutated
parameters as its defaults; in particular a key overridden by the first
construction reads back the override, not the documented default. -/
theorem initParams_mutates_shared_defaults (m : ModuleState) (k : String)
    (v : PVal) :
    (∀ kw, (initParams m kw).1.DEFAULT_TEXT_GEN_PARAMS = (initParams m kw).2) ∧
    (∀ kw, (initParams (initParams m kw).1 []).2 = (initParams m kw).2) ∧
    dictGet (initParams (initParams m [(k, v)]).1 []).2 k = some v := by
  refine ⟨fun kw => rfl, fun kw => rfl, ?_⟩
  simp [initParams, dictUpdate_nil, dictUpdate_single, dictGet_dictSet_self]

/-- Claim C7: the spinner wrapper signals stop and joins the background
thread before returning control, for every wrapped operation — whether it
returns a value or raises — so after the wrapped call completes the
background thread is no longer running, the result or error passes
through unchanged, and the now-set stop flag makes the spin loop write
nothing further (which is why the join completes). -/
theorem spinner_wrap_joins_thread (σ ε α : Type) (op : σ → σ × Except ε α)
    (sp : SpinnerState) (st : σ) :
    ((spinnerWrap op sp st).1.1.threadRunning = false ∧
     (spinnerWrap op sp st).1.1.stop_spinning = true ∧
     (spinnerWrap op sp st).2 = (op st).2) ∧
    ∀ fuel i,
      spinWrites (fun _ => (spinnerWrap op sp st).1.1.stop_spinning) fuel i =
        [] := by
  refine ⟨⟨rfl, rfl, rfl⟩, fun fuel i => ?_⟩
  exact spinWrites_stopped _ (fun n => rfl) fuel i

/-- Claim C8: for every turn whose image path is nonempty but names no
existing file, the loop warns and proceeds as a text-only turn without
raising: the data-URI conversion returns `None`, the user message content
is the lone text part, and the engine is still invoked. -/
theorem runTurn_missing_image_text_only (b64 : String → String) (fs : FS)
    (params : PDict) (sw : List String) (ip ui : String) (h1 : ip ≠ "")
    (h2 : fs.fileExists ip = false) :
    runTurn b64 fs params sw ip ui =
      { warnings := ["\x27" ++ ip ++ "\x27 is not a path to image. Will ignore."]
        rejectedMsg := none
        engineCall := some (chat b64 fs params sw ui ip) } ∧
    image_to_base64_data_uri b64 fs ip = none ∧
    (chat b64 fs params sw ui ip).messages =
      [ { role := "system"
          content := [ContentPart.text
            "You are an assistant who perfectly describes images."] }
      , { role := "user", content := [ContentPart.text ui] } ] := by
  refine ⟨?_, ?_, ?_⟩ <;>
    simp [runTurn, chat, image_to_base64_data_uri, h1, h2]

/-- Witness for C8: a concrete turn with image path `"missing.png"` on an
empty filesystem and text `"hi"` warns, converts no image, and still
produces the engine call. -/
theorem runTurn_missing_image_text_only_witness :
    runTurn (fun s => s) ⟨[], []⟩ [] [] "missing.png" "hi" =
      { warnings :=
          ["\x27missing.png\x27 is not a path to image. Will ignore."]
        rejectedMsg := none
        engineCall := some (chat (fun s => s) ⟨[], []⟩ [] [] "hi" "missing.png") } ∧
    image_to_base64_data_uri (fun s => s) ⟨[], []⟩ "missing.png" = none := by
  have h := runTurn_missing_image_text_only (fun s => s) ⟨[], []⟩ [] []
    "missing.png" "hi" (by decide) (by decide)
  exact ⟨h.1, h.2.1⟩

/-- Claim C9: the context size handed to the engine is exactly
`self.params.get("max_new_tokens", 2048)`: for parameters built by the
constructor with a `max_new_tokens` override it equals the override,
whatever the module defaults were, and when the key is absent it falls
back to 2048. There is no other context-length input to the load call. -/
theorem loadModel_nctx_is_max_new_tokens (params : PDict) (path : String) :
    ((loadModelCall params path).n_ctx =
      dictGetD params "max_new_tokens" (PVal.int 2048)) ∧
    (∀ (m : ModuleState) (v : PVal),
      (loadModelCall (initParams m [("max_new_tokens", v)]).2 path).n_ctx = v) ∧
    (dictGet params "max_new_tokens" = none →
      (loadModelCall params path).n_ctx = PVal.int 2048) := by
  refine ⟨rfl, fun m v => ?_, fun h => ?_⟩
  · simp [loadModelCall, dictGetD, initParams, dictUpdate_single,
      dictGet_dictSet_self]
  · simp [loadModelCall, dictGetD, h]

/-- Witness for C9 at concrete inputs: with `max_new_tokens` set to 512
over empty defaults the engine context is 512, and with no
`max_new_tokens` at all it is 2048. -/
theorem loadModel_nctx_is_max_new_tokens_witness :
    (loadModelCall (initParams ⟨[]⟩ [("max_new_tokens", PVal.int 512)]).2
      "m.gguf").n_ctx = PVal.int 512 ∧
    (loadModelCall [("temperature", PVal.decimal 0 8)] "m.gguf").n_ctx =
      PVal.int 2048 := by
  refine ⟨(loadModel_nctx_is_max_new_tokens
      (initParams ⟨[]⟩ [("max_new_tokens", PVal.int 512)]).2 "m.gguf").2.1 ⟨[]⟩
      (PVal.int 512),
    (loadModel_nctx_is_max_new_tokens [("temperature", PVal.decimal 0 8)]
      "m.gguf").2.2 (by decide)⟩

/-- Claim C10: the stop event of a `SpinningCursorAnimation` instance is
set by `__exit__` and never cleared — `__enter__` leaves it untouched — so
after the first complete use every later use spawns a thread whose every
`is_set` check reads `true`, and that thread writes no spinner frame at
all. -/
theorem spinner_stale_stop_event (s0 : SpinnerState) :
    ((spinnerExit (spinnerEnter s0)).stop_spinning = true ∧
     (spinnerEnter (spinnerExit (spinnerEnter s0))).stop_spinning = true ∧
     (∀ s : SpinnerState, (spinnerEnter s).stop_spinning = s.stop_spinning)) ∧
    ∀ fuel i,
      spinWrites
        (fun _ => (spinnerEnter (spinnerExit (spinnerEnter s0))).stop_spinning)
        fuel i = [] := by
  exact ⟨⟨rfl, rfl, fun s => rfl⟩,
    fun fuel i => spinWrites_stopped _ (fun n => rfl) fuel i⟩

/-- Claim C2 counterexample: with `model-v1.gguf` and `projector-v1.gguf`
both present in `dir`, resolving `"dir/anything:v1"` does not yield that
pair — it exits fatally, because the derived tag is `"v1"` and the files
looked for are `dir/model-v1` and `dir/projector-v1`, which do not
exist. -/
theorem resolve_tag_without_ext_counterexample :
    resolveModel [] (fun a => a)
        ⟨["dir"], [("dir/model-v1.gguf", "M"), ("dir/projector-v1.gguf", "P")]⟩
        "dir/anything:v1" = ResolveResult.fatalExit := by
  decide

/-- Claim C2 amended: the portion after `:` must carry the file extension
as well. For every slash-free directory name `d` (other than `"."`) and
slash- and colon-free tag-with-extension `t`: when `d` contains both
`model-<t>` and `projector-<t>`, resolving `d ++ "/anything:" ++ t`
yields exactly that pair of sibling paths; when only one of the two files
exists, resolution exits fatally. -/
theorem resolve_local_pair_amended (d t : String) (pull : String → String)
    (hd0 : d ≠ ".") (hd : ('/' : Char) ∉ d.data)
    (ht1 : ('/' : Char) ∉ t.data) (ht2 : (':' : Char) ∉ t.data) :
    resolveModel [] pull
        ⟨[d], [(d ++ "/" ++ ("model-" ++ t), "M"),
               (d ++ "/" ++ ("projector-" ++ t), "P")]⟩
        (d ++ "/" ++ ("anything:" ++ t)) =
      ResolveResult.localPair (d ++ "/" ++ ("model-" ++ t))
        (d ++ "/" ++ ("projector-" ++ t)) ∧
    resolveModel [] pull ⟨[d], [(d ++ "/" ++ ("model-" ++ t), "M")]⟩
        (d ++ "/" ++ ("anything:" ++ t)) = ResolveResult.fatalExit ∧
    resolveModel [] pull ⟨[d], [(d ++ "/" ++ ("projector-" ++ t), "P")]⟩
        (d ++ "/" ++ ("anything:" ++ t)) = ResolveResult.fatalExit := by
  have hm6 : ("model-" : String).length = 6 := rfl
  have hp10 : ("projector-" : String).length = 10 := rfl
  have hne : (d ++ "/" ++ ("model-" ++ t)) ≠ (d ++ "/" ++ ("projector-" ++ t)) := by
    intro h
    have hl := congrArg String.length h
    simp only [String.length_append, hm6, hp10] at hl
    omega
  have hrest : ('/' : Char) ∉ ("anything:" ++ t).data := by
    have h1 : ('/' : Char) ∉ ("anything:" : String).data := by decide
    simp only [String.data_append, List.mem_append, not_or]
    exact ⟨h1, ht1⟩
  have hpre : (':' : Char) ∉ ("anything" : String).data := by decide
  have hpar := pathParent_append d ("anything:" ++ t) hd hrest
  have hname := pathName_append d ("anything:" ++ t) hd hrest
  have htag : tagAndExt ("anything:" ++ t) = t :=
    tagAndExt_append "anything" t hpre ht2
  refine ⟨?_, ?_, ?_⟩ <;>
    simp [resolveModel, hubLookup, resolveLocal, hpar, hname, htag,
      pathJoin, hd0, FS.dirExists, FS.fileExists, hne, Ne.symm hne]

/-- Witness for the amended C2 at `d = "dir"`, `t = "v1.gguf"`: resolving
`"dir/anything:v1.gguf"` against a directory holding `model-v1.gguf` and
`projector-v1.gguf` yields that pair, and fails fatally when the
projector file is missing. -/
theorem resolve_local_pair_amended_witness :
    resolveModel [] (fun a => a)
        ⟨["dir"], [("dir/" ++ ("model-" ++ "v1.gguf"), "M"),
                   ("dir/" ++ ("projector-" ++ "v1.gguf"), "P")]⟩
        ("dir/" ++ ("anything" ++ ":" ++ "v1.gguf")) =
      ResolveResult.localPair ("dir/" ++ ("model-" ++ "v1.gguf"))
        ("dir/" ++ ("projector-" ++ "v1.gguf")) ∧
    resolveModel [] (fun a => a)
        ⟨["dir"], [("dir/" ++ ("model-" ++ "v1.gguf"), "M")]⟩
        ("dir/" ++ ("anything" ++ ":" ++ "v1.gguf")) =
      ResolveResult.fatalExit := by
  have h := resolve_local_pair_amended "dir" "v1.gguf" (fun a => a)
    (by decide) (by decide) (by decide) (by decide)
  exact ⟨h.1, h.2.1⟩

/-- Claim C3: resolution precedence. A reference that is a hub key
resolves through the hub, pulling both artifacts, and the outcome is
independent of the local filesystem (so a local file of the same name is
never consulted); a reference that is not a hub key is handed to the
local-pair interpretation; and a non-hub reference that does not resolve
fatally is an existing local pair — equivalently, a reference that is
neither a hub key nor an existing local pair fails. -/
theorem resolveModel_precedence (hub : HubTable) (pull : String → String)
    (fs fs' : FS) (ref : String) :
    (∀ arts, hubLookup hub ref = some arts →
      resolveModel hub pull fs ref =
        ResolveResult.hub (pull arts.1) (pull arts.2) ∧
      resolveModel hub pull fs ref = resolveModel hub pull fs' ref) ∧
    (hubLookup hub ref = none →
      resolveModel hub pull fs ref = resolveLocal fs ref) ∧
    (hubLookup hub ref = none →
      resolveModel hub pull fs ref ≠ ResolveResult.fatalExit →
      ∃ mp pp, resolveModel hub pull fs ref = ResolveResult.localPair mp pp ∧
        fs.fileExists mp = true ∧ fs.fileExists pp = true) := by
  refine ⟨fun arts h => ?_, fun h => ?_, fun h hne => ?_⟩
  · simp [resolveModel, h]
  · simp [resolveModel, h]
  · simp only [resolveModel, h] at hne ⊢
    simp only [resolveLocal] at hne ⊢
    split at hne
    · split at hne
      · next hboth =>
        rw [Bool.and_eq_true] at hboth
        refine ⟨_, _, ?_, hboth.1, hboth.2⟩
        simp_all
      · exact absurd rfl hne
    · exact absurd rfl hne

/-- Witness for C3 at concrete inputs: the hub key `"llava-phi3"` resolves
through the hub even though a local file named `"llava-phi3"` exists, the
outcome does not depend on the filesystem, and a non-hub reference is
resolved locally. -/
theorem resolveModel_precedence_witness :
    (resolveModel [("llava-phi3", "model-art", "proj-art")]
        (fun a => "cache/" ++ a) ⟨["."], [("llava-phi3", "B")]⟩ "llava-phi3" =
      ResolveResult.hub "cache/model-art" "cache/proj-art" ∧
     resolveModel [("llava-phi3", "model-art", "proj-art")]
        (fun a => "cache/" ++ a) ⟨["."], [("llava-phi3", "B")]⟩ "llava-phi3" =
      resolveModel [("llava-phi3", "model-art", "proj-art")]
        (fun a => "cache/" ++ a) ⟨[], []⟩ "llava-phi3") ∧
    resolveModel [("llava-phi3", "model-art", "proj-art")]
        (fun a => "cache/" ++ a) ⟨[], []⟩ "nokey/x:v1" =
      resolveLocal ⟨[], []⟩ "nokey/x:v1" := by
  refine ⟨(resolveModel_precedence [("llava-phi3", "model-art", "proj-art")]
      (fun a => "cache/" ++ a) ⟨["."], [("llava-phi3", "B")]⟩ ⟨[], []⟩
      "llava-phi3").1 ("model-art", "proj-art") (by decide),
    (resolveModel_precedence [("llava-phi3", "model-art", "proj-art")]
      (fun a => "cache/" ++ a) ⟨[], []⟩ ⟨[], []⟩ "nokey/x:v1").2.1 (by decide)⟩

end Nexa
